import Mathlib

/-!
Shallow embedding of the customer-management page in
`src/src/pages/index.tsx`: the JSON data model, the SWR `fetcher`, the
`handleAddCustomer` submission flow, and the table rendering.  Stateful
code is modelled by explicit state passing together with a trace of the
observable effects (requests, state-setter calls, alerts).
-/

/-- Parsed JSON values, as produced by `response.json()` / consumed by
`JSON.stringify`.  Numbers are modelled as integers (no claim depends on
fractional values); objects are ordered key/value lists, mirroring
insertion order of a JS object literal. -/
inductive Json where
  | null : Json
  | bool (b : Bool) : Json
  | num (n : Int) : Json
  | str (s : String) : Json
  | arr (elems : List Json) : Json
  | obj (fields : List (String × Json)) : Json

/-- Property lookup on a parsed JSON object's field list (first match;
the object literals and response bodies involved have distinct keys). -/
def jsonObjGet : List (String × Json) → String → Option Json
  | [], _ => none
  | (k, v) :: rest, key => if k = key then some v else jsonObjGet rest key

/-- JavaScript truthiness of a JSON value: `null`, `false`, `0` and `""`
are falsy; every array and object is truthy. -/
def Json.truthy : Json → Bool
  | .null => false
  | .bool b => b
  | .num n => n != 0
  | .str s => s != ""
  | .arr _ => true
  | .obj _ => true

mutual
/-- JavaScript `String(v)` on a JSON value, as used by `new Error(v)`
when the thrown value is not already a string. -/
def Json.jsToString : Json → String
  | .null => "null"
  | .bool b => if b then "true" else "false"
  | .num n => toString n
  | .str s => s
  | .arr elems => String.intercalate "," (Json.jsToStringElems elems)
  | .obj _ => "[object Object]"

/-- `Array.prototype.toString` renders elements joined by commas, with
`null` elements rendered as the empty string. -/
def Json.jsToStringElems : List Json → List String
  | [] => []
  | .null :: rest => "" :: Json.jsToStringElems rest
  | x :: rest => Json.jsToString x :: Json.jsToStringElems rest
end

/-- `Customer` from `index.tsx` lines 23-28: `businessName` is optional. -/
structure Customer where
  firstName : String
  lastName : String
  email : String
  businessName : Option String
deriving DecidableEq

/-- `ApiError` from `index.tsx` lines 32-35. -/
structure ApiError where
  code : String
  message : String
deriving DecidableEq

/-- Reads a `{code, message}` structure out of a parsed JSON error body. -/
def asApiError (j : Json) : Option ApiError :=
  match j with
  | .obj fields =>
    match jsonObjGet fields "code", jsonObjGet fields "message" with
    | some (.str c), some (.str m) => some ⟨c, m⟩
    | _, _ => none
  | _ => none

/-- `response.ok`: the HTTP status is in the inclusive range 200-299. -/
def statusOk (status : Nat) : Bool := 200 ≤ status && status ≤ 299

/-- The outcome of one `fetch` call as the client observes it: either a
response arrived (with its status and the result of parsing its body as
JSON, `Except.error` being a JSON parse failure), or the fetch promise
itself rejected (network failure). -/
inductive HttpOutcome where
  | response (status : Nat) (body : Except String Json)
  | networkFailure (msg : String)

/-- What a fetch operation can fail with, from the client's view:
the parsed non-2xx body thrown as-is by `fetcher`, a JSON parse error
from `response.json()`, or a network-level rejection. -/
inductive FetchErr where
  | apiError (body : Json)
  | parseError (msg : String)
  | network (msg : String)

/-- `fetcher` from `index.tsx` lines 37-42:
```
const fetcher = async (url) => {
  const response = await fetch(url);
  const body = await response.json();
  if (!response.ok) throw body;
  return body;
};
```
The body is parsed before the status is inspected, so a parse failure
propagates regardless of the status; a non-2xx response with a valid
JSON body throws that parsed body. -/
def fetcher : HttpOutcome → Except FetchErr Json
  | .networkFailure m => .error (.network m)
  | .response status body =>
    match body with
    | .error m => .error (.parseError m)
    | .ok j => if statusOk status then .ok j else .error (.apiError j)

/-- The payload built by `handleAddCustomer` (`index.tsx` lines 58-63)
after `JSON.stringify`: the object literal maps `businessName` to
`undefined` when the draft's `businessName` is falsy (the empty string),
and `JSON.stringify` omits `undefined`-valued keys, so the serialized
body omits the key entirely in that case. -/
def newCustomerPayload (firstName lastName email businessName : String) :
    List (String × Json) :=
  [("firstName", Json.str firstName),
   ("lastName", Json.str lastName),
   ("email", Json.str email)] ++
  (if businessName = "" then [] else [("businessName", Json.str businessName)])

/-- Claim C1: the create-customer JSON body omits the `businessName` key
exactly when the draft's `businessName` is the empty string, includes it
unchanged when non-empty, and always includes `firstName`, `lastName`
and `email` as stored. -/
theorem submit_payload_businessName_policy
    (firstName lastName email businessName : String) :
    jsonObjGet (newCustomerPayload firstName lastName email businessName)
        "firstName" = some (Json.str firstName) ∧
    jsonObjGet (newCustomerPayload firstName lastName email businessName)
        "lastName" = some (Json.str lastName) ∧
    jsonObjGet (newCustomerPayload firstName lastName email businessName)
        "email" = some (Json.str email) ∧
    jsonObjGet (newCustomerPayload firstName lastName email businessName)
        "businessName" =
      (if businessName = "" then none else some (Json.str businessName)) := by
  by_cases h : businessName = "" <;>
    simp [newCustomerPayload, jsonObjGet, h]

/-- The component state `handleAddCustomer` reads and writes
(`index.tsx` lines 51-55): the dialog `open` flag and the four form
fields, each a `useState` string. -/
structure PageState where
  isOpen : Bool
  firstName : String
  lastName : String
  email : String
  businessName : String
deriving DecidableEq

/-- The observable effects of one `handleAddCustomer` run, in program
order: issuing the POST, receiving its response (or its rejection),
invoking the bound SWR `mutate()` (revalidation), the state-setter
calls, and the blocking `alert`. -/
inductive Event where
  | postRequest (body : List (String × Json))
  | postResponseReceived (status : Nat)
  | postNetworkFailure (msg : String)
  | revalidate
  | setFirstName (v : String)
  | setLastName (v : String)
  | setEmail (v : String)
  | setBusinessName (v : String)
  | setOpen (b : Bool)
  | alertShown (msg : String)

/-- The outcome of the `POST /api/customers` fetch: a response with its
status and body-parse result, or a rejected fetch promise. -/
inductive PostOutcome where
  | response (status : Nat) (body : Except String Json)
  | networkFailure (msg : String)

/-- Whether the POST came back as a fully received success response. -/
def postSucceeded : PostOutcome → Bool
  | .response status _ => statusOk status
  | .networkFailure _ => false

/-- The outcome of `await mutate()`: spec §4.1, consistent with the
source behavior, has the revalidation promise propagate a revalidation
failure to its caller, so the awaited call either resolves or rejects. -/
inductive RevalidateOutcome where
  | resolved
  | rejected (msg : String)

/-- How one `handleAddCustomer` run ended: the `try` block ran to
completion, or the `catch` block caught an error carrying `msg`. -/
inductive SubmitOutcome where
  | completed
  | failed (msg : String)
deriving DecidableEq

/-- One complete run of `handleAddCustomer`: its effect trace, the
component state after all setter calls have taken effect, and how the
run ended. -/
structure SubmitRun where
  events : List Event
  final : PageState
  outcome : SubmitOutcome

/-- `errorData.message || 'Failed to add customer'` followed by
`new Error(...)` (`index.tsx` line 74), on the parsed non-2xx body:
property access on `null` throws a TypeError; on a non-object it yields
`undefined`; a falsy `message` value (absent, `null`, `false`, `0`,
`""`) selects the fallback string; a truthy non-string is stringified
by the `Error` constructor. -/
def errorMessageOf : Json → Except String String
  | .null => .error "Cannot read properties of null (reading 'message')"
  | .obj fields =>
    .ok (match jsonObjGet fields "message" with
      | some v => if v.truthy then v.jsToString else "Failed to add customer"
      | none => "Failed to add customer")
  | _ => .ok "Failed to add customer"

/-- `handleAddCustomer` from `index.tsx` lines 57-89, parameterized by
the outcome of the POST fetch and of the awaited `mutate()` call:
builds the payload from the current fields, POSTs it; on a non-ok
response parses the body and throws an `Error` with the body's
`message` or the fallback; on an ok response awaits `mutate()`, then
resets the four fields and closes the dialog.  Any thrown or rejected
error reaches the `catch`, which only alerts. -/
def handleAddCustomer (s : PageState) (post : PostOutcome)
    (reval : RevalidateOutcome) : SubmitRun :=
  let payload := newCustomerPayload s.firstName s.lastName s.email s.businessName
  match post with
  | .networkFailure m =>
    ⟨[.postRequest payload, .postNetworkFailure m, .alertShown ("Error: " ++ m)],
     s, .failed m⟩
  | .response status body =>
    if statusOk status then
      match reval with
      | .resolved =>
        ⟨[.postRequest payload, .postResponseReceived status, .revalidate,
          .setFirstName "", .setLastName "", .setEmail "", .setBusinessName "",
          .setOpen false],
         ⟨false, "", "", "", ""⟩, .completed⟩
      | .rejected m =>
        ⟨[.postRequest payload, .postResponseReceived status, .revalidate,
          .alertShown ("Error: " ++ m)],
         s, .failed m⟩
    else
      match body with
      | .error parseMsg =>
        ⟨[.postRequest payload, .postResponseReceived status,
          .alertShown ("Error: " ++ parseMsg)],
         s, .failed parseMsg⟩
      | .ok j =>
        match errorMessageOf j with
        | .error typeErrMsg =>
          ⟨[.postRequest payload, .postResponseReceived status,
            .alertShown ("Error: " ++ typeErrMsg)],
           s, .failed typeErrMsg⟩
        | .ok m =>
          ⟨[.postRequest payload, .postResponseReceived status,
            .alertShown ("Error: " ++ m)],
           s, .failed m⟩

/-- How many times the trace invoked `mutate()` (revalidation). -/
def countRevalidate : List Event → Nat
  | [] => 0
  | .revalidate :: rest => countRevalidate rest + 1
  | _ :: rest => countRevalidate rest

/-- How many times the trace fired the dialog-closed signal
(`setOpen(false)`). -/
def countDialogClosed : List Event → Nat
  | [] => 0
  | .setOpen false :: rest => countDialogClosed rest + 1
  | _ :: rest => countDialogClosed rest

/-- Whether an event mutates component or cache state (a setter call or
a revalidation), as opposed to merely observing the network or alerting. -/
def isStateMutation : Event → Bool
  | .revalidate => true
  | .setFirstName _ => true
  | .setLastName _ => true
  | .setEmail _ => true
  | .setBusinessName _ => true
  | .setOpen _ => true
  | _ => false

/-- Claim C2, counterexample: a run whose POST returns 200 but whose
awaited `mutate()` rejects (spec §4.1: the revalidation promise
propagates its failure to the caller) throws before the reset lines
run, so the fields are not cleared and the dialog-closed signal never
fires, refuting the claim as stated at this concrete input. -/
theorem submit_success_reset_counterexample :
    postSucceeded (PostOutcome.response 200 (Except.ok Json.null)) = true ∧
    ¬ ((handleAddCustomer ⟨true, "Ann", "Lee", "ann@x.com", ""⟩
          (PostOutcome.response 200 (Except.ok Json.null))
          (RevalidateOutcome.rejected "Failed to fetch")).final.firstName = "" ∧
        countDialogClosed (handleAddCustomer ⟨true, "Ann", "Lee", "ann@x.com", ""⟩
          (PostOutcome.response 200 (Except.ok Json.null))
          (RevalidateOutcome.rejected "Failed to fetch")).events = 1) := by
  decide

/-- Claim C2 (amended): in every run whose POST returns a success (2xx)
response and whose awaited revalidation resolves, `handleAddCustomer`
ends with all four form fields equal to the empty string, the dialog
flag cleared, and the dialog-closed signal fired exactly once. -/
theorem submit_success_resets_form_and_closes_dialog
    (s : PageState) (post : PostOutcome)
    (h : postSucceeded post = true) :
    (handleAddCustomer s post RevalidateOutcome.resolved).final =
      ⟨false, "", "", "", ""⟩ ∧
    countDialogClosed
      (handleAddCustomer s post RevalidateOutcome.resolved).events = 1 := by
  cases post with
  | networkFailure m => simp [postSucceeded] at h
  | response status body =>
    simp only [postSucceeded] at h
    simp [handleAddCustomer, h, countDialogClosed]

/-- Concrete instance of the amended C2 theorem. -/
theorem submit_success_resets_form_and_closes_dialog_witness :
    (handleAddCustomer ⟨true, "Ann", "Lee", "ann@x.com", "Acme"⟩
        (PostOutcome.response 201 (Except.ok Json.null))
        RevalidateOutcome.resolved).final = ⟨false, "", "", "", ""⟩ ∧
    countDialogClosed
      (handleAddCustomer ⟨true, "Ann", "Lee", "ann@x.com", "Acme"⟩
        (PostOutcome.response 201 (Except.ok Json.null))
        RevalidateOutcome.resolved).events = 1 :=
  submit_success_resets_form_and_closes_dialog _ _ (by decide)

/-- Claim C3: `mutate()` (revalidation) is invoked exactly when the
POST response has been fully received and is a success response, at
most once per run, and in that case the trace places the revalidation
strictly after the received response (and after the issued POST). -/
theorem revalidate_iff_post_success (s : PageState) (post : PostOutcome)
    (reval : RevalidateOutcome) :
    (Event.revalidate ∈ (handleAddCustomer s post reval).events ↔
      postSucceeded post = true) ∧
    countRevalidate (handleAddCustomer s post reval).events ≤ 1 ∧
    (if postSucceeded post then
      ∃ status rest,
        (handleAddCustomer s post reval).events =
          Event.postRequest
            (newCustomerPayload s.firstName s.lastName s.email s.businessName) ::
          Event.postResponseReceived status :: Event.revalidate :: rest ∧
        statusOk status = true
    else countRevalidate (handleAddCustomer s post reval).events = 0) := by
  cases post with
  | networkFailure m =>
    simp [handleAddCustomer, postSucceeded, countRevalidate]
  | response status body =>
    by_cases hok : statusOk status
    · cases reval <;>
        simp [handleAddCustomer, postSucceeded, hok, countRevalidate]
    · simp only [Bool.not_eq_true] at hok
      cases body with
      | error parseMsg =>
        simp [handleAddCustomer, postSucceeded, hok, countRevalidate]
      | ok j =>
        cases hmsg : errorMessageOf j <;>
          simp [handleAddCustomer, postSucceeded, hok, hmsg, countRevalidate]

/-- Whether a parsed body's field list holds a JS-truthy `message`
value, i.e. whether `errorData.message || fallback` selects the field. -/
def hasTruthyMessage (fields : List (String × Json)) : Bool :=
  match jsonObjGet fields "message" with
  | some v => v.truthy
  | none => false

/-- Claim C5, counterexample: the body `{"message": ""}` contains a
`message` field, yet `errorData.message || 'Failed to add customer'`
treats the empty string as falsy, so the run fails with the fallback
string rather than with exactly the field's value. -/
theorem submit_error_exact_message_counterexample :
    jsonObjGet [("message", Json.str "")] "message" = some (Json.str "") ∧
    statusOk 400 = false ∧
    (handleAddCustomer ⟨true, "Bob", "Roe", "bob@x.com", ""⟩
        (PostOutcome.response 400 (Except.ok (Json.obj [("message", Json.str "")])))
        RevalidateOutcome.resolved).outcome ≠ SubmitOutcome.failed "" ∧
    (handleAddCustomer ⟨true, "Bob", "Roe", "bob@x.com", ""⟩
        (PostOutcome.response 400 (Except.ok (Json.obj [("message", Json.str "")])))
        RevalidateOutcome.resolved).outcome =
      SubmitOutcome.failed "Failed to add customer" := by
  refine ⟨rfl, rfl, ?_, rfl⟩
  intro h
  simp [handleAddCustomer, statusOk, errorMessageOf, jsonObjGet,
    Json.truthy] at h

/-- Claim C5 (amended): for every non-2xx POST response whose body
parses as a JSON object holding a non-empty string `message`, the run
fails carrying exactly that message, and the component state — the four
form fields and the dialog flag — is exactly what it was at submission
time. -/
theorem submit_error_uses_nonempty_message (s : PageState) (status : Nat)
    (fields : List (String × Json)) (m : String) (reval : RevalidateOutcome)
    (hst : statusOk status = false)
    (hm : jsonObjGet fields "message" = some (Json.str m)) (hne : m ≠ "") :
    (handleAddCustomer s
        (PostOutcome.response status (Except.ok (Json.obj fields))) reval).outcome =
      SubmitOutcome.failed m ∧
    (handleAddCustomer s
        (PostOutcome.response status (Except.ok (Json.obj fields))) reval).final = s := by
  simp [handleAddCustomer, hst, errorMessageOf, hm, Json.truthy, hne,
    Json.jsToString]

/-- Concrete instance of the amended C5 theorem: a 400 response with
body `{"message":"email already exists"}`. -/
theorem submit_error_uses_nonempty_message_witness :
    (handleAddCustomer ⟨true, "Bob", "Roe", "bob@x.com", ""⟩
        (PostOutcome.response 400
          (Except.ok (Json.obj [("message", Json.str "email already exists")])))
        RevalidateOutcome.resolved).outcome =
      SubmitOutcome.failed "email already exists" ∧
    (handleAddCustomer ⟨true, "Bob", "Roe", "bob@x.com", ""⟩
        (PostOutcome.response 400
          (Except.ok (Json.obj [("message", Json.str "email already exists")])))
        RevalidateOutcome.resolved).final = ⟨true, "Bob", "Roe", "bob@x.com", ""⟩ :=
  submit_error_uses_nonempty_message ⟨true, "Bob", "Roe", "bob@x.com", ""⟩ 400
    [("message", Json.str "email already exists")] "email already exists"
    RevalidateOutcome.resolved (by decide) rfl (by decide)

/-- Claim C6, counterexample: a non-success response whose body is not
valid JSON lacks a `message` field, yet the run fails with the
`res.json()` parse error, not with the fallback
"Failed to add customer". -/
theorem submit_fallback_message_counterexample :
    postSucceeded (PostOutcome.response 500
        (Except.error "Unexpected token < in JSON at position 0")) = false ∧
    (handleAddCustomer ⟨true, "Cy", "Doe", "cy@x.com", ""⟩
        (PostOutcome.response 500
          (Except.error "Unexpected token < in JSON at position 0"))
        RevalidateOutcome.resolved).outcome ≠
      SubmitOutcome.failed "Failed to add customer" ∧
    (handleAddCustomer ⟨true, "Cy", "Doe", "cy@x.com", ""⟩
        (PostOutcome.response 500
          (Except.error "Unexpected token < in JSON at position 0"))
        RevalidateOutcome.resolved).outcome =
      SubmitOutcome.failed "Unexpected token < in JSON at position 0" := by
  refine ⟨rfl, ?_, rfl⟩
  intro h
  simp [handleAddCustomer, statusOk] at h

/-- Claim C6 (amended): on a non-success POST response whose body
parses as a JSON object, the run fails with the JS stringification of
the `message` value when that value is present and truthy (for a
non-empty string, the string itself), and with the fallback
"Failed to add customer" when the object holds no truthy `message`;
a body that does not parse as JSON makes the run fail with the parse
error message instead. -/
theorem submit_error_message_policy (s : PageState) (status : Nat)
    (reval : RevalidateOutcome) (hst : statusOk status = false) :
    (∀ fields v, jsonObjGet fields "message" = some v → v.truthy = true →
      (handleAddCustomer s
          (PostOutcome.response status (Except.ok (Json.obj fields))) reval).outcome =
        SubmitOutcome.failed v.jsToString) ∧
    (∀ fields, hasTruthyMessage fields = false →
      (handleAddCustomer s
          (PostOutcome.response status (Except.ok (Json.obj fields))) reval).outcome =
        SubmitOutcome.failed "Failed to add customer") ∧
    (∀ parseMsg,
      (handleAddCustomer s
          (PostOutcome.response status (Except.error parseMsg)) reval).outcome =
        SubmitOutcome.failed parseMsg) := by
  refine ⟨?_, ?_, ?_⟩
  · intro fields v hm htruthy
    simp [handleAddCustomer, hst, errorMessageOf, hm, htruthy]
  · intro fields hfalsy
    simp only [hasTruthyMessage] at hfalsy
    cases hm : jsonObjGet fields "message" with
    | none => simp [handleAddCustomer, hst, errorMessageOf, hm]
    | some v =>
      rw [hm] at hfalsy
      have hv : v.truthy = false := hfalsy
      simp [handleAddCustomer, hst, errorMessageOf, hm, hv]
  · intro parseMsg
    simp [handleAddCustomer, hst]

/-- Concrete instance of the amended C6 theorem: a 400 response whose
body is the empty JSON object falls back to the generic message. -/
theorem submit_error_message_policy_witness :
    (handleAddCustomer ⟨true, "Di", "Poe", "di@x.com", ""⟩
        (PostOutcome.response 400 (Except.ok (Json.obj [])))
        RevalidateOutcome.resolved).outcome =
      SubmitOutcome.failed "Failed to add customer" :=
  (submit_error_message_policy ⟨true, "Di", "Poe", "di@x.com", ""⟩ 400
      RevalidateOutcome.resolved (by decide)).2.1 [] rfl

/-- Claim C10: when the POST fails (non-2xx response or rejected
fetch), the component state is exactly what it was before the run — in
particular the dialog flag is untouched, so an open dialog stays open —
and the trace contains no state mutation at all: no revalidation (the
cached collection is untouched) and no setter call; only the surfaced
alert. -/
theorem submit_failure_frame (s : PageState) (post : PostOutcome)
    (reval : RevalidateOutcome) (h : postSucceeded post = false) :
    (handleAddCustomer s post reval).final = s ∧
    countRevalidate (handleAddCustomer s post reval).events = 0 ∧
    ∀ e ∈ (handleAddCustomer s post reval).events, isStateMutation e = false := by
  cases post with
  | networkFailure m =>
    simp [handleAddCustomer, countRevalidate, isStateMutation]
  | response status body =>
    simp only [postSucceeded] at h
    cases body with
    | error parseMsg =>
      simp [handleAddCustomer, h, countRevalidate, isStateMutation]
    | ok j =>
      cases hmsg : errorMessageOf j <;>
        simp [handleAddCustomer, h, hmsg, countRevalidate, isStateMutation]

/-- Concrete instance of the C10 frame theorem: a rejected POST fetch. -/
theorem submit_failure_frame_witness :
    (handleAddCustomer ⟨true, "Ann", "Lee", "ann@x.com", ""⟩
        (PostOutcome.networkFailure "Failed to fetch")
        RevalidateOutcome.resolved).final = ⟨true, "Ann", "Lee", "ann@x.com", ""⟩ ∧
    countRevalidate (handleAddCustomer ⟨true, "Ann", "Lee", "ann@x.com", ""⟩
        (PostOutcome.networkFailure "Failed to fetch")
        RevalidateOutcome.resolved).events = 0 ∧
    ∀ e ∈ (handleAddCustomer ⟨true, "Ann", "Lee", "ann@x.com", ""⟩
        (PostOutcome.networkFailure "Failed to fetch")
        RevalidateOutcome.resolved).events, isStateMutation e = false :=
  submit_failure_frame ⟨true, "Ann", "Lee", "ann@x.com", ""⟩
    (PostOutcome.networkFailure "Failed to fetch") RevalidateOutcome.resolved rfl

/-- Modelled from the spec: the hook that owns the Controller's state
(the `useSWR` call, `index.tsx` line 45) is an external dependency whose
implementation is not under src/; only its destructured view `data`,
`error`, `isLoading` appears there.  This record is that exposed view. -/
structure SWRState where
  data : Option Json
  error : Option FetchErr
  isLoading : Bool

/-- Modelled from the spec: before the initial fetch completes the
Controller is `loading` — no data yet, no error (§4.1). -/
def initialSWR : SWRState := ⟨none, none, true⟩

/-- Modelled from the spec: the Controller transitions §4.1 describes —
the initial load completes successfully or fails, a revalidation from
`ready` replaces the cached data on success, and a failed fetch attempt
leaves the Controller `failed` ("last fetch attempt returned a
non-success response or rejected"); a later retry from `failed` loads
or fails again. -/
inductive SWRStep : SWRState → SWRState → Prop where
  | loadSuccess (d : Json) : SWRStep ⟨none, none, true⟩ ⟨some d, none, false⟩
  | loadFailure (e : FetchErr) : SWRStep ⟨none, none, true⟩ ⟨none, some e, false⟩
  | revalSuccess (d d' : Json) :
      SWRStep ⟨some d, none, false⟩ ⟨some d', none, false⟩
  | revalFailure (d : Json) (e : FetchErr) :
      SWRStep ⟨some d, none, false⟩ ⟨none, some e, false⟩
  | retrySuccess (e : FetchErr) (d : Json) :
      SWRStep ⟨none, some e, false⟩ ⟨some d, none, false⟩
  | retryFailure (e e' : FetchErr) :
      SWRStep ⟨none, some e, false⟩ ⟨none, some e', false⟩

/-- The Controller states reachable from the initial loading state. -/
def ControllerReachable (s : SWRState) : Prop :=
  Relation.ReflTransGen SWRStep initialSWR s

/-- The `loading` view: no data yet, no error (`index.tsx` line 101). -/
def SWRState.loadingView (s : SWRState) : Bool :=
  s.isLoading && s.data.isNone && s.error.isNone

/-- The `ready(data)` view: a successful fetch completed
(`index.tsx` line 103). -/
def SWRState.readyView (s : SWRState) : Bool :=
  !s.isLoading && s.data.isSome && s.error.isNone

/-- The `failed(error)` view: the last fetch attempt failed
(`index.tsx` line 102). -/
def SWRState.failedView (s : SWRState) : Bool :=
  !s.isLoading && s.data.isNone && s.error.isSome

/-- Modelled from the spec: the Controller's exposed view once the
initial load has completed with HTTP outcome `o` — `ready` holding the
fetched body when `fetcher` succeeds, `failed` holding what `fetcher`
threw when it fails (§4.1). -/
def controllerAfterLoad (o : HttpOutcome) : SWRState :=
  match fetcher o with
  | .ok d => ⟨some d, none, false⟩
  | .error e => ⟨none, some e, false⟩

/-- Claim C4: a non-2xx `GET /api/customers` response with a valid JSON
body makes the fetch fail with that parsed body as the structured
error, and the Controller lands in the failed state; concretely, a 500
with body `{"code":"internal_error","message":"db down"}` yields a
failed state whose error is that ApiError body with message
`"db down"`. -/
theorem controller_failed_with_api_error (status : Nat) (j : Json)
    (hst : statusOk status = false) :
    fetcher (HttpOutcome.response status (Except.ok j)) =
      Except.error (FetchErr.apiError j) ∧
    controllerAfterLoad (HttpOutcome.response status (Except.ok j)) =
      ⟨none, some (FetchErr.apiError j), false⟩ ∧
    controllerAfterLoad (HttpOutcome.response 500 (Except.ok (Json.obj
        [("code", Json.str "internal_error"), ("message", Json.str "db down")]))) =
      ⟨none, some (FetchErr.apiError (Json.obj
        [("code", Json.str "internal_error"), ("message", Json.str "db down")])),
       false⟩ ∧
    asApiError (Json.obj
        [("code", Json.str "internal_error"), ("message", Json.str "db down")]) =
      some ⟨"internal_error", "db down"⟩ := by
  refine ⟨?_, ?_, rfl, rfl⟩ <;> simp [fetcher, controllerAfterLoad, hst]

/-- Concrete instance of the C4 theorem: a 404 with body `{}`. -/
theorem controller_failed_with_api_error_witness :
    fetcher (HttpOutcome.response 404 (Except.ok (Json.obj []))) =
      Except.error (FetchErr.apiError (Json.obj [])) ∧
    controllerAfterLoad (HttpOutcome.response 404 (Except.ok (Json.obj []))) =
      ⟨none, some (FetchErr.apiError (Json.obj [])), false⟩ ∧
    controllerAfterLoad (HttpOutcome.response 500 (Except.ok (Json.obj
        [("code", Json.str "internal_error"), ("message", Json.str "db down")]))) =
      ⟨none, some (FetchErr.apiError (Json.obj
        [("code", Json.str "internal_error"), ("message", Json.str "db down")])),
       false⟩ ∧
    asApiError (Json.obj
        [("code", Json.str "internal_error"), ("message", Json.str "db down")]) =
      some ⟨"internal_error", "db down"⟩ :=
  controller_failed_with_api_error 404 (Json.obj []) rfl

/-- Claim C7: every reachable Controller state is exactly one of
loading, ready and failed — in particular cached data and an error are
never present together. -/
theorem controller_states_mutually_exclusive (s : SWRState)
    (h : ControllerReachable s) :
    (s.loadingView.toNat + s.readyView.toNat + s.failedView.toNat = 1) ∧
    ¬(s.data.isSome = true ∧ s.error.isSome = true) ∧
    ¬(s.isLoading = true ∧ s.data.isSome = true) ∧
    ¬(s.isLoading = true ∧ s.error.isSome = true) := by
  induction h with
  | refl => decide
  | tail _ step _ =>
    cases step <;>
      simp [SWRState.loadingView, SWRState.readyView, SWRState.failedView]

/-- Concrete instance of the C7 theorem, at the initial loading state. -/
theorem controller_states_mutually_exclusive_witness :
    (initialSWR.loadingView.toNat + initialSWR.readyView.toNat +
      initialSWR.failedView.toNat = 1) ∧
    ¬(initialSWR.data.isSome = true ∧ initialSWR.error.isSome = true) ∧
    ¬(initialSWR.isLoading = true ∧ initialSWR.data.isSome = true) ∧
    ¬(initialSWR.isLoading = true ∧ initialSWR.error.isSome = true) :=
  controller_states_mutually_exclusive initialSWR Relation.ReflTransGen.refl

/-- One rendered table row (`index.tsx` lines 146-151): the name cell
holds `{customer.firstName} {customer.lastName}` and the second cell
the email. -/
structure RenderedRow where
  name : String
  email : String
deriving DecidableEq

/-- The table body (`index.tsx` lines 144-153): `data.map`, one row per
customer in the order the collection holds them. -/
def renderRows (customers : List Customer) : List RenderedRow :=
  customers.map fun c => ⟨c.firstName ++ " " ++ c.lastName, c.email⟩

/-- Claim C8: the rendered list has one row per customer, in server
order, showing the display name `firstName ++ " " ++ lastName` and the
email; concretely, the one-element collection Ann/Lee renders exactly
one row with display name "Ann Lee" and email "ann@x.com". -/
theorem rendered_rows_match_collection (customers : List Customer) (i : Nat) :
    (renderRows customers).length = customers.length ∧
    (renderRows customers)[i]? = (customers[i]?).map
      (fun c => RenderedRow.mk (c.firstName ++ " " ++ c.lastName) c.email) ∧
    renderRows [⟨"Ann", "Lee", "ann@x.com", none⟩] =
      [⟨"Ann Lee", "ann@x.com"⟩] := by
  refine ⟨by simp [renderRows], ?_, by decide⟩
  simp [renderRows]

/-- Claim C9: `fetcher` parses the body before inspecting the status —
a body that is not valid JSON fails the load with a parse error
whatever the status — and the load succeeds exactly when the status is
2xx and the body is valid JSON. -/
theorem fetcher_parses_body_before_status (status : Nat)
    (body : Except String Json) :
    (∀ m, fetcher (HttpOutcome.response status (Except.error m)) =
      Except.error (FetchErr.parseError m)) ∧
    (∀ j, fetcher (HttpOutcome.response status (Except.ok j)) =
      if statusOk status then Except.ok j
      else Except.error (FetchErr.apiError j)) ∧
    ((∃ d, fetcher (HttpOutcome.response status body) = Except.ok d) ↔
      (statusOk status = true ∧ ∃ j, body = Except.ok j)) := by
  refine ⟨fun m => rfl, fun j => rfl, ?_⟩
  cases body with
  | error m => simp [fetcher]
  | ok j => by_cases hok : statusOk status <;> simp [fetcher, hok]
